import Mathlib

/-!
Verification development for `lora_diffusion/dataset.py`.

The Python source is shallowly embedded:

* Randomness (`random.randint`, `random.random`, `random.uniform`,
  `random.choice`) is modelled by an explicit `Rng` record holding two
  pre-drawn streams — one of naturals feeding the integer draws and one of
  rationals feeding the float draws — together with read positions.  A call
  to `random.randint(lo, hi)` consumes the next natural `v` and yields
  `lo + v % (hi - lo + 1)`; as `v` ranges over all naturals this yields
  exactly the integers of `[lo, hi]`, which is the shallow rendering of a
  uniform draw.  Like the Python function, it fails (`none`) when `hi < lo`.
* Tensors are total functions from (channel, row, column) integer indices to
  rational pixel values; image shapes are passed explicitly where the Python
  code reads `.shape`.
* Python exceptions (`ValueError` from `randint`, `IndexError`, failed
  `assert`s) are modelled by `Option`/`Except` results.
* Strings use Python semantics for `str.strip`, `str.replace` and
  `str.format` (single-slot templates), re-implemented over `List Char`.
-/

/-- Characters treated as whitespace by Python's default `str.strip()`. -/
def pyIsSpace (c : Char) : Bool :=
  c = ' ' || c = '\t' || c = '\n' || c = '\r' || c = '\x0b' || c = '\x0c'

/-- Python `s.strip()`: removes leading and trailing whitespace. -/
def pyStrip (s : String) : String :=
  ⟨((s.data.dropWhile pyIsSpace).reverse.dropWhile pyIsSpace).reverse⟩

/-- Modelled from the spec: the spec's §4.3 wording "stripped of trailing
whitespace/newline" describes a trailing-only strip; this definition follows
those words so it can be compared with the source's `pyStrip` (which also
strips leading whitespace). -/
def stripTrailingOnly (s : String) : String :=
  ⟨(s.data.reverse.dropWhile pyIsSpace).reverse⟩

/-- Core loop of Python `s.replace(pat, rep)` for a non-empty pattern:
left-to-right scan replacing non-overlapping occurrences.  The fuel is the
length of the remaining text, which suffices because each step consumes at
least one character. -/
def pyReplaceFuel (pat rep : List Char) : Nat → List Char → List Char
  | 0, s => s
  | _ + 1, [] => []
  | fuel + 1, c :: rest =>
    if pat.isPrefixOf (c :: rest) then
      rep ++ pyReplaceFuel pat rep fuel ((c :: rest).drop pat.length)
    else
      c :: pyReplaceFuel pat rep fuel rest

/-- Python `s.replace(pat, rep)`.  For an empty pattern Python inserts `rep`
before every character and once at the end. -/
def pyReplace (s pat rep : String) : String :=
  match pat.data with
  | [] => ⟨rep.data ++ s.data.flatMap (fun c => c :: rep.data)⟩
  | _ :: _ => ⟨pyReplaceFuel pat.data rep.data s.data.length s.data⟩

/-- Python `template.format(v)` for the single-slot templates of this module
(every template string in `OBJECT_TEMPLATE`, `STYLE_TEMPLATE` and
`NULL_TEMPLATE` contains exactly one `\x7b\x7d` slot, so replacing every
occurrence coincides with positional formatting). -/
def pyFormat (t v : String) : String :=
  pyReplace t "\x7b\x7d" v

/-- Python `x.split("/")[-1]`: the part of the path after the last slash. -/
def basename (p : String) : String :=
  ⟨(p.data.reverse.takeWhile (fun c => c ≠ '/')).reverse⟩

/-- Python `s.split(".")[0]`: the part before the first dot. -/
def firstDotSeg (s : String) : String :=
  ⟨s.data.takeWhile (fun c => c ≠ '.')⟩

/-- Python truthiness of an `Optional[str]`: `None` and `""` are falsy. -/
def pyTruthy : Option String → Bool
  | none => false
  | some s => !(s == "")

/-- Explicit random-generator state: a stream of naturals feeding the
integer draws and a stream of rationals feeding the float draws, with the
current read position of each. -/
structure Rng where
  istream : Nat → Nat
  ipos : Nat
  fstream : Nat → ℚ
  fpos : Nat

instance : Inhabited Rng := ⟨⟨fun _ => 0, 0, fun _ => 0, 0⟩⟩

/-- Advance the integer stream by one draw. -/
def Rng.succI (r : Rng) : Rng :=
  { r with ipos := r.ipos + 1 }

/-- Advance the float stream by one draw. -/
def Rng.succF (r : Rng) : Rng :=
  { r with fpos := r.fpos + 1 }

/-- Pop the next integer draw. -/
def Rng.nextInt (r : Rng) : Nat × Rng :=
  (r.istream r.ipos, r.succI)

/-- Pop the next float draw (models `random.random()` / `random.uniform(0,1)`,
both of which produce one float from the generator). -/
def Rng.nextFloat (r : Rng) : ℚ × Rng :=
  (r.fstream r.fpos, r.succF)

/-- Python `random.randint(lo, hi)`: an integer uniform over `[lo, hi]`
inclusive; raises `ValueError` (here: `none`) when `hi < lo`. -/
def randint (lo hi : Int) (r : Rng) : Option (Int × Rng) :=
  if hi < lo then none
  else
    let (v, r1) := r.nextInt
    some (lo + (v : Int) % (hi - lo + 1), r1)

/-- Python `random.choice(seq)` for string sequences: a uniformly chosen
element; raises `IndexError` (here: `none`) on an empty sequence. -/
def pychoice (l : List String) (r : Rng) : Option (String × Rng) :=
  match l with
  | [] => none
  | _ :: _ =>
    let (v, r1) := r.nextInt
    some (l.getD (v % l.length) "", r1)

/-- Source list `OBJECT_TEMPLATE`. -/
def OBJECT_TEMPLATE : List String :=
  [ "a photo of a \x7b\x7d",
    "a rendering of a \x7b\x7d",
    "a cropped photo of the \x7b\x7d",
    "the photo of a \x7b\x7d",
    "a photo of a clean \x7b\x7d",
    "a photo of a dirty \x7b\x7d",
    "a dark photo of the \x7b\x7d",
    "a photo of my \x7b\x7d",
    "a photo of the cool \x7b\x7d",
    "a close-up photo of a \x7b\x7d",
    "a bright photo of the \x7b\x7d",
    "a cropped photo of a \x7b\x7d",
    "a photo of the \x7b\x7d",
    "a good photo of the \x7b\x7d",
    "a photo of one \x7b\x7d",
    "a close-up photo of the \x7b\x7d",
    "a rendition of the \x7b\x7d",
    "a photo of the clean \x7b\x7d",
    "a rendition of a \x7b\x7d",
    "a photo of a nice \x7b\x7d",
    "a good photo of a \x7b\x7d",
    "a photo of the nice \x7b\x7d",
    "a photo of the small \x7b\x7d",
    "a photo of the weird \x7b\x7d",
    "a photo of the large \x7b\x7d",
    "a photo of a cool \x7b\x7d",
    "a photo of a small \x7b\x7d" ]

/-- Source list `STYLE_TEMPLATE`. -/
def STYLE_TEMPLATE : List String :=
  [ "a painting in the style of \x7b\x7d",
    "a rendering in the style of \x7b\x7d",
    "a cropped painting in the style of \x7b\x7d",
    "the painting in the style of \x7b\x7d",
    "a clean painting in the style of \x7b\x7d",
    "a dirty painting in the style of \x7b\x7d",
    "a dark painting in the style of \x7b\x7d",
    "a picture in the style of \x7b\x7d",
    "a cool painting in the style of \x7b\x7d",
    "a close-up painting in the style of \x7b\x7d",
    "a bright painting in the style of \x7b\x7d",
    "a cropped painting in the style of \x7b\x7d",
    "a good painting in the style of \x7b\x7d",
    "a close-up painting in the style of \x7b\x7d",
    "a rendition in the style of \x7b\x7d",
    "a nice painting in the style of \x7b\x7d",
    "a small painting in the style of \x7b\x7d",
    "a weird painting in the style of \x7b\x7d",
    "a large painting in the style of \x7b\x7d" ]

/-- Source list `NULL_TEMPLATE`. -/
def NULL_TEMPLATE : List String := ["\x7b\x7d"]

/-- Source dict `TEMPLATE_MAP`, as a lookup by name (`dict[...]` access,
`none` models `KeyError`). -/
def TEMPLATE_MAP (name : String) : Option (List String) :=
  if name = "object" then some OBJECT_TEMPLATE
  else if name = "style" then some STYLE_TEMPLATE
  else if name = "null" then some NULL_TEMPLATE
  else none

/-- An image tensor: channel → row → column → value. -/
def Tensor : Type := Int → Int → Int → ℚ

/-- A single-channel mask tensor: row → column → value (the channel dimension
of the Python `(1, H, W)` mask is elided). -/
def MaskT : Type := Int → Int → ℚ

/-- A cutout hole `(x1, y1, x2, y2)` as appended by `_get_cutout_holes`. -/
structure Hole where
  x1 : Int
  y1 : Int
  x2 : Int
  y2 : Int
deriving DecidableEq, Repr, Inhabited

/-- Whether pixel `(y, x)` lies inside the half-open rectangle of the hole —
the pixels written by the slice assignment `mask[:, y1:y2, x1:x2] = 1.0`. -/
def Hole.covers (h : Hole) (y x : Int) : Bool :=
  decide (h.y1 ≤ y) && decide (y < h.y2) && decide (h.x1 ≤ x) && decide (x < h.x2)

/-- The `for _n in range(...)` body of `_get_cutout_holes`: each iteration
draws `hole_height`, `hole_width`, `y1`, `x1` and appends
`(x1, y1, x1 + hole_width, y1 + hole_height)`. -/
def cutoutLoop (height width min_height max_height min_width max_width : Int) :
    Nat → Rng → List Hole → Option (List Hole × Rng)
  | 0, r, acc => some (acc.reverse, r)
  | n + 1, r, acc =>
    match randint min_height max_height r with
    | none => none
    | some (hole_height, r1) =>
      match randint min_width max_width r1 with
      | none => none
      | some (hole_width, r2) =>
        match randint 0 (height - hole_height) r2 with
        | none => none
        | some (y1, r3) =>
          match randint 0 (width - hole_width) r3 with
          | none => none
          | some (x1, r4) =>
            cutoutLoop height width min_height max_height min_width max_width n r4
              (⟨x1, y1, x1 + hole_width, y1 + hole_height⟩ :: acc)

/-- Source function `_get_cutout_holes`.  The Python parameter defaults are
`min_holes=8, max_holes=32, min_height=16, max_height=128, min_width=16,
max_width=128`; all call sites use the defaults, passed explicitly here. -/
def getCutoutHoles
    (height width min_holes max_holes min_height max_height min_width max_width : Int)
    (r : Rng) : Option (List Hole × Rng) :=
  match randint min_holes max_holes r with
  | none => none
  | some (n, r1) =>
    cutoutLoop height width min_height max_height min_width max_width n.toNat r1 []

/-- One slice assignment `mask[:, y1:y2, x1:x2] = 1.0`. -/
def applyHole (m : MaskT) (h : Hole) : MaskT :=
  fun y x => if h.covers y x then 1 else m y x

/-- The mask after the hole loop: all zeros, then each hole's rectangle set
to 1 in order. -/
def holesMask (holes : List Hole) : MaskT :=
  holes.foldl applyHole (fun _ _ => 0)

/-- The literal `0.5` of the source, in normalised constructor form so that
comparisons against it reduce by `decide`. -/
def qHalf : ℚ := Rat.mk' 1 2 (by decide) (by decide)

/-- The literal `0.25` of the source, in normalised constructor form. -/
def qFourth : ℚ := Rat.mk' 1 4 (by decide) (by decide)

theorem qHalf_eq : qHalf = 1 / 2 := by
  rw [qHalf, Rat.mk'_eq_divInt]
  norm_num [Rat.divInt_eq_div]

theorem qFourth_eq : qFourth = 1 / 4 := by
  rw [qFourth, Rat.mk'_eq_divInt]
  norm_num [Rat.divInt_eq_div]

/-- Source function `_generate_random_mask`.  Here `height` and `width` stand for
`mask.shape[1]` and `mask.shape[2]` (the spatial shape of `image`), which the
function-typed tensors do not carry intrinsically.  The final line
`masked_image = image * (mask < 0.5)` multiplies by the boolean tensor
(`True ↦ 1`, `False ↦ 0`), broadcast over channels. -/
def generateRandomMask (height width : Int) (image : Tensor) (r : Rng) :
    Option (MaskT × Tensor × Rng) :=
  match getCutoutHoles height width 8 32 16 128 16 128 r with
  | none => none
  | some (holes, r1) =>
    let (u, r2) := r1.nextFloat
    let mask : MaskT := if u < qFourth then (fun _ _ => 1) else holesMask holes
    let masked_image : Tensor :=
      fun c y x => image c y x * (if mask y x < qHalf then 1 else 0)
    some (mask, masked_image, r2)

/-- The fields of `PivotalTuningDatasetCapation` consulted by `__getitem__`
(the tokenizer and the transform chain are abstract collaborators passed
separately). -/
structure DState where
  size : Int
  instance_images_path : List String
  mask_path : List String
  captions : List String
  use_mask : Bool
  use_mask_captioned_data : Bool
  token_map : Option (List (String × String))
  use_template : Option String
  templates : List String
  num_instance_images : Nat
  h_flip : Bool
  train_inpainting : Bool
  clipseg_mask : Bool
  clipseg_prompt : String

instance : Inhabited DState :=
  ⟨⟨0, [], [], [], false, false, none, none, [], 0, false, false, false, ""⟩⟩

/-- The example record built by `__getitem__`. -/
structure Example where
  instance_images : Tensor
  instance_masks : Option MaskT
  instance_masked_images : Option Tensor
  mask : Option Tensor
  instance_prompt_ids : List Int

instance : Inhabited Example :=
  ⟨⟨fun _ _ _ => 0, none, none, none, []⟩⟩

section GetItem

variable {Img : Type}

/-- The final `transforms.Normalize([0.5], [0.5])` step: `x ↦ (x - 0.5) / 0.5`,
mapping the `ToTensor` range `[0, 1]` onto `[-1, 1]`. -/
def normalizeT (t : Tensor) : Tensor :=
  fun c y x => (t c y x - qHalf) / qHalf

/-- The `self.image_transforms` chain.  `pre` abstracts the resize /
color-jitter / center-crop / `ToTensor` prefix of the chain (standard media
glue whose output is a float tensor with values in `[0, 1]`); the chain then
applies the concrete `Normalize([0.5], [0.5])` step.  The same chain object is
applied to instance images and to masks loaded from disk. -/
def imageTransforms (pre : Img → Tensor) (im : Img) : Tensor :=
  normalizeT (pre im)

/-- The remap `* 0.5 + 1.0` applied to a mask after the transform chain
(line `example["mask"] = self.image_transforms(...) * 0.5 + 1.0`). -/
def maskRemap (t : Tensor) : Tensor :=
  fun c y x => t c y x * qHalf + 1

/-- Free-caption rewriting: `text = caption.strip()` followed by
`text = text.replace(token, value)` for each token-map entry in insertion
order (only when a token map was supplied). -/
def applyTokenMap (tm : Option (List (String × String))) (text : String) : String :=
  match tm with
  | none => text
  | some l => l.foldl (fun t kv => pyReplace t kv.1 kv.2) text

/-- The free-caption branch of prompt resolution, as the source computes it
(Python `str.strip()` removes leading and trailing whitespace). -/
def resolveFreeCaption (caption : String) (tm : Option (List (String × String))) : String :=
  applyTokenMap tm (pyStrip caption)

/-- Modelled from the spec: the free-caption branch as §4.3 words it, with the
caption "stripped of trailing whitespace/newline" only; for comparison with
`resolveFreeCaption`. -/
def resolveFreeCaptionSpec (caption : String) (tm : Option (List (String × String))) : String :=
  applyTokenMap tm (stripTrailingOnly caption)

/-- Prompt resolution of `__getitem__` (lines 342-352): template mode picks a
random template and formats it with the first token-map value (`assert` on a
`None` token map and the `[0]` indexing of an empty one are `none`);
free-caption mode reads `self.captions[index % num]` (an out-of-range index
is an `IndexError`, hence `none`) and rewrites it. -/
def resolveText (st : DState) (index : Nat) (r : Rng) : Option (String × Rng) :=
  if pyTruthy st.use_template then
    match st.token_map with
    | none => none
    | some [] => none
    | some ((_, v) :: _) =>
      match pychoice st.templates r with
      | none => none
      | some (t, r1) => some (pyFormat t v, r1)
  else
    match st.captions.get? (index % st.num_instance_images) with
    | none => none
    | some cap => some (resolveFreeCaption cap st.token_map, r)

/-- The inpainting-mask step of `__getitem__` (lines 330-340): the random
cutout branch runs when `train_inpainting and not clipseg_mask`, the clipseg
branch (an external vision-language model, abstracted as `clipsegFn`) when
`train_inpainting and clipseg_mask`.  The transformed image has spatial shape
`size × size` after the center crop, which is what `mask.shape[1:]` reads. -/
def inpaintStage (clipsegFn : Tensor → String → MaskT × Tensor) (st : DState)
    (img : Tensor) (r : Rng) : Option (Option (MaskT × Tensor) × Rng) :=
  if st.train_inpainting && !st.clipseg_mask then
    match generateRandomMask st.size st.size img r with
    | none => none
    | some (m, mi, r1) => some (some (m, mi), r1)
  else if st.train_inpainting && st.clipseg_mask then
    some (some (clipsegFn img st.clipseg_prompt), r)
  else
    some (none, r)

/-- The mask-loading step of `__getitem__` (lines 356-363): when `use_mask`
is set, the mask file for the index is opened (`ifs` abstracts image
decoding), pushed through the same transform chain as the image, and remapped
by `* 0.5 + 1.0`. -/
def maskStage (ifs : String → Img) (pre : Img → Tensor) (st : DState)
    (index : Nat) : Option (Option Tensor) :=
  if st.use_mask then
    match st.mask_path.get? (index % st.num_instance_images) with
    | none => none
    | some mp => some (some (maskRemap (imageTransforms pre (ifs mp))))
  else
    some none

/-- Model of `transforms.RandomHorizontalFlip(p=1)` on a `size × size` tensor. -/
def flipT (size : Int) (t : Tensor) : Tensor :=
  fun c y x => t c y (size - 1 - x)

/-- Apply the horizontal flip iff `b`. -/
def condFlip (size : Int) (b : Bool) (t : Tensor) : Tensor :=
  if b then flipT size t else t

/-- The single flip decision of lines 365-370: `self.h_flip and
random.random() > 0.5`, evaluated on the float draw available at that point. -/
def flipDecision (st : DState) (r : Rng) : Bool :=
  st.h_flip && decide (r.fstream r.fpos > qHalf)

/-- The flip step of `__getitem__` (lines 365-370): when `h_flip` is enabled
one float is drawn (Python short-circuits `and`, so no draw happens
otherwise), and if it exceeds 0.5 the same flip is applied to the image and,
when present, to the loaded mask. -/
def flipStage (st : DState) (img : Tensor) (mask0 : Option Tensor) (r : Rng) :
    Tensor × Option Tensor × Rng :=
  if st.h_flip then
    let (u, r1) := r.nextFloat
    if u > qHalf then (flipT st.size img, mask0.map (flipT st.size), r1)
    else (img, mask0, r1)
  else (img, mask0, r)

/-- Source method `__getitem__`.  Here `ifs` abstracts `Image.open` (plus the
RGB conversion), `pre` the resize/jitter/crop/`ToTensor` prefix of the
transform chain, `clipsegFn` the external clipseg model, and `tok` the
tokenizer (`text ↦ input_ids`).  Stages run in source order: inpainting mask
synthesis, prompt resolution, on-disk mask loading, horizontal flip,
tokenization. -/
def getitem (ifs : String → Img) (pre : Img → Tensor)
    (clipsegFn : Tensor → String → MaskT × Tensor) (tok : String → List Int)
    (st : DState) (index : Nat) (r : Rng) : Option (Example × Rng) :=
  match st.instance_images_path.get? (index % st.num_instance_images) with
  | none => none
  | some ipath =>
    match inpaintStage clipsegFn st (imageTransforms pre (ifs ipath)) r with
    | none => none
    | some (inp, r1) =>
      match resolveText st index r1 with
      | none => none
      | some (text, r2) =>
        match maskStage ifs pre st index with
        | none => none
        | some mask0 =>
          match flipStage st (imageTransforms pre (ifs ipath)) mask0 r2 with
          | (img2, mask2, r3) =>
            some ({ instance_images := img2,
                    instance_masks := inp.map Prod.fst,
                    instance_masked_images := inp.map Prod.snd,
                    mask := mask2,
                    instance_prompt_ids := tok text }, r3)

end GetItem

/-- Well-formedness facts established by `__init__` and relied on by
`__getitem__`: the stored count is the length of the (non-empty) image list,
and in masked mode there is a mask path for every index. -/
def DStateWF (st : DState) : Prop :=
  st.num_instance_images = st.instance_images_path.length ∧
  0 < st.num_instance_images ∧
  (st.use_mask = true → st.mask_path.length = st.num_instance_images)

/-- The filesystem as `__init__` observes it: existence of the root, the
result lists of the four glob patterns (in directory-enumeration order, which
`glob.glob` does not sort), per-path mask existence, and the lines of
`caption.txt` (as `readlines` returns them). -/
structure FS where
  rootExists : Bool
  globSrcJpg : List String
  globJpg : List String
  globPng : List String
  globJpeg : List String
  globMaskPng : List String
  maskExists : String → Bool
  captionLines : List String

/-- One filesystem access performed during construction, in order. -/
inductive IOp where
  | statRoot : IOp
  | globOp : String → IOp
  | statFile : String → IOp
  | openRead : String → IOp
  | writeFile : String → IOp
deriving DecidableEq, Repr

/-- The fatal construction-time errors of `__init__`. -/
inductive InitError where
  | missingRoot
  | bothMaskCaptionedAndTemplate
  | badStemInt (path : String)
  | noImages
  | unknownTemplate (name : String)
deriving DecidableEq, Repr

/-- The constructor arguments consulted by the modelled `__init__`. -/
structure InitArgs where
  instance_data_root : String
  token_map : Option (List (String × String))
  use_template : Option String
  size : Int
  h_flip : Bool
  use_mask_captioned_data : Bool
  use_face_segmentation_condition : Bool
  train_inpainting : Bool
  clipseg_mask : Bool
  clipseg_prompt : String

/-- Lexicographic comparison of code-point sequences, as Python compares
strings. -/
def strLeList : List Char → List Char → Bool
  | [], _ => true
  | _ :: _, [] => false
  | a :: as, b :: bs =>
    if a.toNat < b.toNat then true
    else if b.toNat < a.toNat then false
    else strLeList as bs

/-- Python `a <= b` on strings. -/
def pyStrLe (a b : String) : Bool :=
  strLeList a.data b.data

/-- Insert into an ascending list (helper for `pySorted`). -/
def insertSorted (x : String) : List String → List String
  | [] => [x]
  | y :: ys => if pyStrLe x y then x :: y :: ys else y :: insertSorted x ys

/-- Python `sorted(...)` on strings: ascending lexicographic order (modelled
by insertion sort, extensionally the same ordering). -/
def pySorted (l : List String) : List String :=
  l.foldr insertSorted []

/-- Python `list(set(...))`, modelled as first-occurrence deduplication.
(CPython's set iteration order is unspecified; any fixed choice is a
refinement of it, and no claim below depends on the choice.) -/
def dedup (l : List String) : List String :=
  l.foldl (fun acc x => if acc.contains x then acc else acc ++ [x]) []

/-- The mask-captioned discovery loop (lines 220-229): for each `*src.jpg`
file, parse the numeric stem (`int(...)`, a `ValueError` on failure), stat
the paired `{idx}.mask.png`, and keep the pair only when the mask exists. -/
def scanSrcImgs (fs : FS) (root : String) :
    List String → Except InitError (List (String × String)) × List IOp
  | [] => (Except.ok [], [])
  | f :: rest =>
    match (firstDotSeg (basename f)).toInt? with
    | none => (Except.error (InitError.badStemInt f), [])
    | some idx =>
      let mp := root ++ "/" ++ toString idx ++ ".mask.png"
      match scanSrcImgs fs root rest with
      | (Except.error e, ops) => (Except.error e, IOp.statFile mp :: ops)
      | (Except.ok pairs, ops) =>
        (Except.ok (if fs.maskExists mp then (f, mp) :: pairs else pairs),
          IOp.statFile mp :: ops)

/-- Path `{root}/{idx}.mask.png` as built for face-segmentation masks. -/
def faceTarg (root : String) (idx : Nat) : String :=
  root ++ "/" ++ toString idx ++ ".mask.png"

/-- Source constructor `__init__`, returning the dataset state (or the fatal
error) together with the ordered trace of filesystem accesses.  Faithful
ordering: the root-existence check (line 208) precedes the
mask-captioned/template mutual-exclusion `assert` (line 214), which precedes
all globbing and reading; in free mode the captions are derived from the
image list *before* it is sorted (lines 245-254); the face-segmentation scan
backfills all masks on the first missing one (lines 259-288); the template
set is looked up whenever `use_template is not None` (line 294). -/
def init (fs : FS) (a : InitArgs) : Except InitError DState × List IOp :=
  let root := a.instance_data_root
  if !fs.rootExists then
    (Except.error InitError.missingRoot, [IOp.statRoot])
  else if a.use_mask_captioned_data && pyTruthy a.use_template then
    (Except.error InitError.bothMaskCaptionedAndTemplate, [IOp.statRoot])
  else
    let discovered :
        Except InitError (List String × List String × List String) × List IOp :=
      if a.use_mask_captioned_data then
        match scanSrcImgs fs root fs.globSrcJpg with
        | (Except.error e, ops) =>
          (Except.error e, IOp.globOp (root ++ "/*src.jpg") :: ops)
        | (Except.ok pairs, ops) =>
          (Except.ok (pairs.map Prod.fst, pairs.map Prod.snd, fs.captionLines),
            (IOp.globOp (root ++ "/*src.jpg") :: ops)
              ++ [IOp.openRead (root ++ "/caption.txt")])
      else
        let possibily := dedup (fs.globJpg ++ fs.globPng ++ fs.globJpeg)
        let filtered := possibily.filter
          (fun p => !(fs.globMaskPng.contains p) && !(p == root ++ "/caption.txt"))
        let images := dedup filtered
        (Except.ok (images, [], images.map (fun x => firstDotSeg (basename x))),
          [IOp.globOp (root ++ "/*.jpg"), IOp.globOp (root ++ "/*.png"),
           IOp.globOp (root ++ "/*.jpeg"), IOp.globOp (root ++ "/*mask.png")])
    match discovered with
    | (Except.error e, dops) => (Except.error e, IOp.statRoot :: dops)
    | (Except.ok (images0, maskPaths0, captions), dops) =>
      if images0.isEmpty then
        (Except.error InitError.noImages, IOp.statRoot :: dops)
      else
        let images := pySorted images0
        let n := images.length
        let faceScan : List String × List IOp :=
          if a.use_face_segmentation_condition then
            match (List.range n).find? (fun idx => !fs.maskExists (faceTarg root idx)) with
            | none =>
              ((List.range n).map (faceTarg root),
                (List.range n).map (fun idx => IOp.statFile (faceTarg root idx)))
            | some k =>
              ((List.range n).map (faceTarg root),
                ((List.range (k + 1)).map (fun idx => IOp.statFile (faceTarg root idx)))
                  ++ images.map IOp.openRead
                  ++ (List.range n).map (fun idx => IOp.writeFile (faceTarg root idx)))
          else ([], [])
        let templatesLookup : Except InitError (List String) :=
          match a.use_template with
          | none => Except.ok []
          | some name =>
            match TEMPLATE_MAP name with
            | none => Except.error (InitError.unknownTemplate name)
            | some ts => Except.ok ts
        match templatesLookup with
        | Except.error e => (Except.error e, IOp.statRoot :: (dops ++ faceScan.2))
        | Except.ok templates =>
          (Except.ok
            { size := a.size,
              instance_images_path := images,
              mask_path := maskPaths0 ++ faceScan.1,
              captions := captions,
              use_mask := a.use_face_segmentation_condition || a.use_mask_captioned_data,
              use_mask_captioned_data := a.use_mask_captioned_data,
              token_map := a.token_map,
              use_template := a.use_template,
              templates := templates,
              num_instance_images := images.length,
              h_flip := a.h_flip,
              train_inpainting := a.train_inpainting,
              clipseg_mask := a.clipseg_mask,
              clipseg_prompt := a.clipseg_prompt },
            IOp.statRoot :: (dops ++ faceScan.2))

theorem randint_none_iff (lo hi : Int) (r : Rng) : randint lo hi r = none ↔ hi < lo := by
  unfold randint
  by_cases h : hi < lo <;> simp [h, Rng.nextInt]

theorem randint_some_spec (lo hi : Int) (r : Rng) (v : Int) (r' : Rng)
    (h : randint lo hi r = some (v, r')) :
    lo ≤ v ∧ v ≤ hi ∧ r' = r.succI := by
  unfold randint at h
  by_cases hlt : hi < lo
  · simp [hlt] at h
  · simp [hlt, Rng.nextInt] at h
    obtain ⟨hv, hr⟩ := h
    have hm : (0 : Int) < hi - lo + 1 := by omega
    have h0 : (0 : Int) ≤ (r.istream r.ipos : Int) % (hi - lo + 1) :=
      Int.emod_nonneg _ (by omega)
    have h1 : (r.istream r.ipos : Int) % (hi - lo + 1) < hi - lo + 1 :=
      Int.emod_lt_of_pos _ hm
    constructor
    · omega
    · constructor
      · omega
      · exact hr.symm

/-- Geometry invariant of one generated hole. -/
def GoodHole (height width min_height max_height min_width max_width : Int)
    (h : Hole) : Prop :=
  min_height ≤ h.y2 - h.y1 ∧ h.y2 - h.y1 ≤ max_height ∧
  min_width ≤ h.x2 - h.x1 ∧ h.x2 - h.x1 ≤ max_width ∧
  0 ≤ h.y1 ∧ h.y2 ≤ height ∧ 0 ≤ h.x1 ∧ h.x2 ≤ width

theorem cutoutLoop_spec (height width min_height max_height min_width max_width : Int) :
    ∀ (n : Nat) (r : Rng) (acc holes : List Hole) (r' : Rng),
      cutoutLoop height width min_height max_height min_width max_width n r acc
        = some (holes, r') →
      holes.length = acc.length + n ∧
      ∀ h, h ∈ holes → h ∈ acc ∨
        GoodHole height width min_height max_height min_width max_width h := by
  intro n
  induction n with
  | zero =>
    intro r acc holes r' hloop
    simp only [cutoutLoop, Option.some.injEq, Prod.mk.injEq] at hloop
    obtain ⟨h1, _⟩ := hloop
    subst h1
    constructor
    · simp
    · intro h hmem
      left
      simpa using hmem
  | succ n ih =>
    intro r acc holes r' hloop
    simp only [cutoutLoop] at hloop
    cases hhh : randint min_height max_height r with
    | none => simp [hhh] at hloop
    | some p1 =>
      obtain ⟨hole_height, r1⟩ := p1
      simp only [hhh] at hloop
      cases hhw : randint min_width max_width r1 with
      | none => simp [hhw] at hloop
      | some p2 =>
        obtain ⟨hole_width, r2⟩ := p2
        simp only [hhw] at hloop
        cases hy : randint 0 (height - hole_height) r2 with
        | none => simp [hy] at hloop
        | some p3 =>
          obtain ⟨y1, r3⟩ := p3
          simp only [hy] at hloop
          cases hx : randint 0 (width - hole_width) r3 with
          | none => simp [hx] at hloop
          | some p4 =>
            obtain ⟨x1, r4⟩ := p4
            simp only [hx] at hloop
            obtain ⟨hlen, hmem⟩ := ih r4 (⟨x1, y1, x1 + hole_width, y1 + hole_height⟩ :: acc) holes r' hloop
            obtain ⟨hh1, hh2, _⟩ := randint_some_spec _ _ _ _ _ hhh
            obtain ⟨hw1, hw2, _⟩ := randint_some_spec _ _ _ _ _ hhw
            obtain ⟨hy1, hy2, _⟩ := randint_some_spec _ _ _ _ _ hy
            obtain ⟨hx1, hx2, _⟩ := randint_some_spec _ _ _ _ _ hx
            constructor
            · simp at hlen
              omega
            · intro h hm
              rcases hmem h hm with hacc | hgood
              · rcases List.mem_cons.mp hacc with heq | htail
                · right
                  subst heq
                  unfold GoodHole
                  simp only []
                  refine ⟨by omega, by omega, by omega, by omega,
                    by omega, by omega, by omega, by omega⟩
                · left; exact htail
              · right; exact hgood

theorem foldl_applyHole_eq (holes : List Hole) :
    ∀ (m : MaskT) (y x : Int),
      (holes.foldl applyHole m) y x
        = if holes.any (fun h => h.covers y x) then 1 else m y x := by
  induction holes with
  | nil => intro m y x; simp
  | cons h t ih =>
    intro m y x
    simp only [List.foldl_cons, List.any_cons]
    rw [ih]
    by_cases hc : h.covers y x = true
    · simp [hc, applyHole]
    · simp only [Bool.not_eq_true] at hc
      simp [hc, applyHole]

theorem holesMask_eq (holes : List Hole) (y x : Int) :
    holesMask holes y x = if holes.any (fun h => h.covers y x) then 1 else 0 := by
  unfold holesMask
  rw [foldl_applyHole_eq]

theorem holesMask_zero_or_one (holes : List Hole) (y x : Int) :
    holesMask holes y x = 0 ∨ holesMask holes y x = 1 := by
  rw [holesMask_eq]
  by_cases hc : holes.any (fun h => h.covers y x) = true
  · right; simp [hc]
  · left; simp [hc]

/-- Unfolding of a successful `generateRandomMask` run in terms of the drawn
holes and the override draw. -/
theorem generateRandomMask_some_spec (height width : Int) (image : Tensor)
    (r : Rng) (mask : MaskT) (masked : Tensor) (r' : Rng)
    (hgen : generateRandomMask height width image r = some (mask, masked, r')) :
    ∃ holes r1, getCutoutHoles height width 8 32 16 128 16 128 r = some (holes, r1) ∧
      mask = (if r1.fstream r1.fpos < qFourth then (fun _ _ => 1) else holesMask holes) ∧
      masked = (fun c y x => image c y x * (if mask y x < qHalf then 1 else 0)) ∧
      r' = r1.succF := by
  unfold generateRandomMask at hgen
  cases hcut : getCutoutHoles height width 8 32 16 128 16 128 r with
  | none => simp [hcut] at hgen
  | some p =>
    obtain ⟨holes, r1⟩ := p
    simp only [hcut, Rng.nextFloat, Option.some.injEq, Prod.mk.injEq] at hgen
    obtain ⟨hm, hmi, hr⟩ := hgen
    refine ⟨holes, r1, rfl, hm.symm, ?_, hr.symm⟩
    rw [← hm]
    exact hmi.symm

/-- With one hole still to generate, an image smaller than the minimum hole
size makes the corner draw fail, and the whole loop with it. -/
theorem cutoutLoop_none_of_small (height width : Int) (m : Nat) (r : Rng)
    (acc : List Hole) (h : height < 16 ∨ width < 16) :
    cutoutLoop height width 16 128 16 128 (m + 1) r acc = none := by
  simp only [cutoutLoop]
  have hhh : randint 16 128 r = some (16 + (r.istream r.ipos : Int) % 113, r.succI) := by
    norm_num [randint, Rng.nextInt]
  obtain ⟨hh1, hh2, _⟩ := randint_some_spec _ _ _ _ _ hhh
  simp only [hhh]
  have hhw : randint 16 128 r.succI
      = some (16 + (r.succI.istream r.succI.ipos : Int) % 113, r.succI.succI) := by
    norm_num [randint, Rng.nextInt]
  obtain ⟨hw1, hw2, _⟩ := randint_some_spec _ _ _ _ _ hhw
  simp only [hhw]
  rcases h with hh | hw
  · have hy : randint 0 (height - (16 + (r.istream r.ipos : Int) % 113)) r.succI.succI = none := by
      rw [randint_none_iff]
      omega
    simp [hy]
  · cases hy : randint 0 (height - (16 + (r.istream r.ipos : Int) % 113)) r.succI.succI with
    | none => simp
    | some p =>
      obtain ⟨y1, r3⟩ := p
      have hx : randint 0 (width - (16 + (r.succI.istream r.succI.ipos : Int) % 113)) r3 = none := by
        rw [randint_none_iff]
        omega
      simp [hx]

/-- The all-zero random source used by concrete witnesses. -/
def rng0 : Rng := ⟨fun _ => 0, 0, fun _ => 0, 0⟩

/-- A constant test image. -/
def img0 : Tensor := fun _ _ _ => 5

/-- Concrete run of `_generate_random_mask` on a 16×16 image. -/
def genOut0 : MaskT × Tensor × Rng :=
  (generateRandomMask 16 16 img0 rng0).getD ((fun _ _ => 0), (fun _ _ _ => 0), rng0)

/-- Concrete run of `_get_cutout_holes` on a 16×16 image. -/
def holesOut0 : List Hole × Rng :=
  (getCutoutHoles 16 16 8 32 16 128 16 128 rng0).getD ([], rng0)

/-- C1: for every input image and every outcome of the random draws, the
masked image returned by `_generate_random_mask` is zero at every pixel where
the returned mask is ≥ 0.5 and equals the source image at every other
pixel. -/
theorem C1_masked_image_round_trip (height width : Int) (image : Tensor) (r : Rng)
    (mask : MaskT) (masked : Tensor) (r' : Rng) (c y x : Int)
    (hgen : generateRandomMask height width image r = some (mask, masked, r')) :
    masked c y x = if 1 / 2 ≤ mask y x then 0 else image c y x := by
  obtain ⟨holes, r1, _, _, hmi, _⟩ :=
    generateRandomMask_some_spec _ _ _ _ _ _ _ hgen
  subst hmi
  simp only [qHalf_eq]
  by_cases hlt : mask y x < 1 / 2
  · rw [if_pos hlt, if_neg (by linarith), mul_one]
  · rw [if_neg hlt, if_pos (by linarith), mul_zero]

/-- Witness for C1 at a concrete 16×16 image and random source. -/
theorem C1_masked_image_round_trip_witness :
    generateRandomMask 16 16 img0 rng0 = some (genOut0.1, genOut0.2.1, genOut0.2.2) ∧
    genOut0.2.1 0 0 0 = if 1 / 2 ≤ genOut0.1 0 0 then 0 else img0 0 0 0 :=
  ⟨rfl, C1_masked_image_round_trip 16 16 img0 rng0 genOut0.1 genOut0.2.1 genOut0.2.2
    0 0 0 rfl⟩

/-- C2: a successful run of the cutout synthesizer draws a hole count that is
a single draw mapped onto [8, 32] (so the hole list has between 8 and 32
entries), every hole has height and width in [16, 128] and fits entirely
inside the image, and the resulting mask is all-ones when the override draw
is below 0.25 and otherwise is 1 exactly on the union of the hole rectangles
and 0 elsewhere. -/
theorem C2_cutout_sampling (height width : Int) (image : Tensor) (r : Rng)
    (mask : MaskT) (masked : Tensor) (r' : Rng) (holes : List Hole) (r1 : Rng)
    (hole : Hole) (y x : Int)
    (hgen : generateRandomMask height width image r = some (mask, masked, r'))
    (hcut : getCutoutHoles height width 8 32 16 128 16 128 r = some (holes, r1))
    (hmem : hole ∈ holes) :
    (8 ≤ holes.length ∧ holes.length ≤ 32) ∧
    holes.length = (8 + (r.istream r.ipos : Int) % 25).toNat ∧
    GoodHole height width 16 128 16 128 hole ∧
    mask y x = (if r1.fstream r1.fpos < 1 / 4 then 1
      else if holes.any (fun h => h.covers y x) then 1 else 0) := by
  have hstart : randint 8 32 r = some (8 + (r.istream r.ipos : Int) % 25, r.succI) := by
    norm_num [randint, Rng.nextInt]
  obtain ⟨hn1, hn2, _⟩ := randint_some_spec _ _ _ _ _ hstart
  have hloop : cutoutLoop height width 16 128 16 128
      (8 + (r.istream r.ipos : Int) % 25).toNat r.succI [] = some (holes, r1) := by
    unfold getCutoutHoles at hcut
    rw [hstart] at hcut
    simpa using hcut
  obtain ⟨hlen, hgeom⟩ := cutoutLoop_spec _ _ _ _ _ _ _ _ _ _ _ hloop
  simp only [List.length_nil, Nat.zero_add] at hlen
  obtain ⟨holes2, r2, hcut2, hm, _, _⟩ :=
    generateRandomMask_some_spec _ _ _ _ _ _ _ hgen
  rw [hcut] at hcut2
  obtain ⟨hh2, hr2⟩ : holes = holes2 ∧ r1 = r2 := by
    have h1 := Option.some.inj hcut2
    exact ⟨congrArg Prod.fst h1, congrArg Prod.snd h1⟩
  subst hh2
  subst hr2
  refine ⟨⟨by omega, by omega⟩, hlen, ?_, ?_⟩
  · rcases hgeom hole hmem with habs | hgood
    · simp at habs
    · exact hgood
  · subst hm
    rw [← qFourth_eq]
    by_cases ho : r1.fstream r1.fpos < qFourth
    · rw [if_pos ho, if_pos ho]
    · rw [if_neg ho, if_neg ho]
      exact holesMask_eq holes y x

/-- Witness for C2 at a concrete 16×16 image and random source (eight 16×16
holes at the origin). -/
theorem C2_cutout_sampling_witness :
    generateRandomMask 16 16 img0 rng0 = some (genOut0.1, genOut0.2.1, genOut0.2.2) ∧
    getCutoutHoles 16 16 8 32 16 128 16 128 rng0 = some (holesOut0.1, holesOut0.2) ∧
    (⟨0, 0, 16, 16⟩ : Hole) ∈ holesOut0.1 ∧
    ((8 ≤ holesOut0.1.length ∧ holesOut0.1.length ≤ 32) ∧
      holesOut0.1.length = (8 + (rng0.istream rng0.ipos : Int) % 25).toNat ∧
      GoodHole 16 16 16 128 16 128 ⟨0, 0, 16, 16⟩ ∧
      genOut0.1 3 7 = (if holesOut0.2.fstream holesOut0.2.fpos < 1 / 4 then 1
        else if holesOut0.1.any (fun h => h.covers 3 7) then 1 else 0)) :=
  ⟨rfl, rfl, by decide,
    C2_cutout_sampling 16 16 img0 rng0 genOut0.1 genOut0.2.1 genOut0.2.2
      holesOut0.1 holesOut0.2 ⟨0, 0, 16, 16⟩ 3 7 rfl rfl (by decide)⟩

/-- C6: on an image whose height or width is below the minimum hole size 16,
random cutout mask generation always fails (the corner-sampling range is
empty, a `ValueError` in Python), for every random source. -/
theorem C6_small_image_generation_fails (height width : Int) (image : Tensor)
    (r : Rng) (h : height < 16 ∨ width < 16) :
    getCutoutHoles height width 8 32 16 128 16 128 r = none ∧
    generateRandomMask height width image r = none := by
  have hstart : randint 8 32 r = some (8 + (r.istream r.ipos : Int) % 25, r.succI) := by
    norm_num [randint, Rng.nextInt]
  obtain ⟨hn1, _, _⟩ := randint_some_spec _ _ _ _ _ hstart
  have hcut : getCutoutHoles height width 8 32 16 128 16 128 r = none := by
    unfold getCutoutHoles
    rw [hstart]
    simp only
    have hpos : ∃ m, (8 + (r.istream r.ipos : Int) % 25).toNat = m + 1 := by
      refine ⟨(8 + (r.istream r.ipos : Int) % 25).toNat - 1, ?_⟩
      omega
    obtain ⟨m, hm⟩ := hpos
    rw [hm]
    exact cutoutLoop_none_of_small height width m r.succI [] h
  refine ⟨hcut, ?_⟩
  unfold generateRandomMask
  rw [hcut]

/-- Witness for C6 at an 8×8 image. -/
theorem C6_small_image_generation_fails_witness :
    ((8 : Int) < 16 ∨ (8 : Int) < 16) ∧
    getCutoutHoles 8 8 8 32 16 128 16 128 rng0 = none ∧
    generateRandomMask 8 8 img0 rng0 = none :=
  ⟨Or.inl (by norm_num),
    C6_small_image_generation_fails 8 8 img0 rng0 (Or.inl (by norm_num))⟩

/-- A template-mode dataset state (`use_template="null"`,
`token_map={"<tok>": "dog"}`) as `__init__` would build it. -/
def stT : DState :=
  { size := 512, instance_images_path := ["r/a.jpg"], mask_path := [],
    captions := ["a"], use_mask := false, use_mask_captioned_data := false,
    token_map := some [("<tok>", "dog")], use_template := some "null",
    templates := NULL_TEMPLATE, num_instance_images := 1, h_flip := false,
    train_inpainting := false, clipseg_mask := false, clipseg_prompt := "" }

/-- A free-caption dataset state with token map `{"A": "x", "B": "y"}` and a
stored caption with leading whitespace. -/
def stF : DState :=
  { size := 512, instance_images_path := ["r/a.jpg"], mask_path := [],
    captions := [" A and B"], use_mask := false, use_mask_captioned_data := false,
    token_map := some [("A", "x"), ("B", "y")], use_template := none,
    templates := [], num_instance_images := 1, h_flip := false,
    train_inpainting := false, clipseg_mask := false, clipseg_prompt := "" }

/-- C3: in template mode with a non-empty token map, the resolved text is the
template at the single drawn index (the draw reduced modulo the set size, so
every template of the named set can be selected) formatted with the first
value of the token map; the named set `"null"` is the single template
`"\x7b\x7d"`, whose formatting with `"dog"` is exactly `"dog"` — so for that
set the resolved text is `"dog"` for every draw. -/
theorem C3_template_prompt_resolution (st : DState) (index : Nat) (r : Rng)
    (k v : String) (rest : List (String × String))
    (htr : pyTruthy st.use_template = true)
    (htm : st.token_map = some ((k, v) :: rest))
    (hne : st.templates ≠ []) :
    resolveText st index r
      = some (pyFormat (st.templates.getD (r.istream r.ipos % st.templates.length) "") v,
          r.succI) ∧
    TEMPLATE_MAP "null" = some ["\x7b\x7d"] ∧
    pyFormat "\x7b\x7d" "dog" = "dog" := by
  refine ⟨?_, by decide, by decide⟩
  cases hts : st.templates with
  | nil => exact absurd hts hne
  | cons t0 ts =>
    simp only [resolveText, htr, if_true, htm, pychoice, hts, Rng.nextInt]

/-- Witness for C3: with the `"null"` template set and token map
`{"<tok>": "dog"}`, the resolved text evaluates to exactly `"dog"`. -/
theorem C3_template_prompt_resolution_witness :
    pyTruthy stT.use_template = true ∧
    stT.token_map = some (("<tok>", "dog") :: []) ∧
    stT.templates ≠ [] ∧
    (resolveText stT 0 rng0
      = some (pyFormat (stT.templates.getD (rng0.istream rng0.ipos % stT.templates.length) "")
          "dog", rng0.succI) ∧
      TEMPLATE_MAP "null" = some ["\x7b\x7d"] ∧
      pyFormat "\x7b\x7d" "dog" = "dog") ∧
    resolveText stT 0 rng0 = some ("dog", rng0.succI) :=
  ⟨rfl, rfl, by decide,
    C3_template_prompt_resolution stT 0 rng0 "<tok>" "dog" [] rfl rfl (by decide), rfl⟩

/-- C4 counterexample: on the stored caption `" A and B"` (leading space)
with token map `{"A": "x", "B": "y"}`, the code's free-caption resolution
(Python `str.strip()`, both ends) yields `"x and y"`, while the claim's
trailing-only strip yields `" x and y"`. -/
theorem C4_trailing_strip_counterexample :
    resolveText stF 0 rng0 = some ("x and y", rng0) ∧
    resolveFreeCaptionSpec " A and B" stF.token_map = " x and y" ∧
    ("x and y" : String) ≠ " x and y" :=
  ⟨rfl, by decide, by decide⟩

/-- C4 (amended): in free-caption mode the resolved prompt is the stored
caption for the index stripped of leading *and* trailing whitespace, then —
only when a token map was supplied — with every literal occurrence of every
map key replaced by its value, keys applied in insertion order; the token map
`{"A": "x", "B": "y"}` applied to the caption `"A and B"` yields
`"x and y"`. -/
theorem C4_free_caption_resolution (st : DState) (index : Nat) (r : Rng)
    (cap : String)
    (htr : pyTruthy st.use_template = false)
    (hc : st.captions.get? (index % st.num_instance_images) = some cap) :
    resolveText st index r = some (applyTokenMap st.token_map (pyStrip cap), r) ∧
    resolveFreeCaption "A and B" (some [("A", "x"), ("B", "y")]) = "x and y" := by
  refine ⟨?_, by decide⟩
  simp only [resolveText, htr, if_false, hc, Bool.false_eq_true, resolveFreeCaption]

/-- Witness for C4 (amended) on the `stF` state. -/
theorem C4_free_caption_resolution_witness :
    pyTruthy stF.use_template = false ∧
    stF.captions.get? (0 % stF.num_instance_images) = some " A and B" ∧
    (resolveText stF 0 rng0 = some (applyTokenMap stF.token_map (pyStrip " A and B"), rng0) ∧
      resolveFreeCaption "A and B" (some [("A", "x"), ("B", "y")]) = "x and y") :=
  ⟨rfl, rfl, C4_free_caption_resolution stF 0 rng0 " A and B" rfl rfl⟩

theorem flipStage_eq (st : DState) (img : Tensor) (mask0 : Option Tensor)
    (r : Rng) :
    flipStage st img mask0 r
      = (condFlip st.size (flipDecision st r) img,
         mask0.map (condFlip st.size (flipDecision st r)),
         if st.h_flip then r.succF else r) := by
  unfold flipStage flipDecision condFlip Rng.nextFloat
  by_cases hf : st.h_flip
  · by_cases hu : r.fstream r.fpos > qHalf
    · simp [hf, hu]
    · simp [hf, hu]
  · simp [hf]

/-- Decomposition of a successful `__getitem__` run through its stages. -/
theorem getitem_some_spec {Img : Type} (ifs : String → Img) (pre : Img → Tensor)
    (cf : Tensor → String → MaskT × Tensor) (tok : String → List Int)
    (st : DState) (index : Nat) (r : Rng) (ex : Example) (r' : Rng)
    (ipath : String) (inp : Option (MaskT × Tensor)) (r1 : Rng) (text : String)
    (r2 : Rng) (mask0 : Option Tensor)
    (hget : getitem ifs pre cf tok st index r = some (ex, r'))
    (hip : st.instance_images_path.get? (index % st.num_instance_images) = some ipath)
    (hinp : inpaintStage cf st (imageTransforms pre (ifs ipath)) r = some (inp, r1))
    (htext : resolveText st index r1 = some (text, r2))
    (hmask : maskStage ifs pre st index = some mask0) :
    ex = { instance_images :=
             condFlip st.size (flipDecision st r2) (imageTransforms pre (ifs ipath)),
           instance_masks := inp.map Prod.fst,
           instance_masked_images := inp.map Prod.snd,
           mask := mask0.map (condFlip st.size (flipDecision st r2)),
           instance_prompt_ids := tok text } ∧
    r' = (if st.h_flip then r2.succF else r2) := by
  unfold getitem at hget
  rw [hip] at hget
  simp only [hinp, htext, hmask, flipStage_eq, Option.some.injEq,
    Prod.mk.injEq] at hget
  obtain ⟨hex, hr⟩ := hget
  exact ⟨hex.symm, hr.symm⟩

/-- C5: in every successful lookup the horizontal flip is a single decision —
`h_flip and random.random() > 0.5`, evaluated once on the float draw
available after prompt resolution — and the identical flip is applied to the
image tensor and (when present) to the mask tensor; no independent flip
decisions exist, and the decision is `false` whenever flipping is disabled. -/
theorem C5_hflip_single_decision {Img : Type} (ifs : String → Img)
    (pre : Img → Tensor) (cf : Tensor → String → MaskT × Tensor)
    (tok : String → List Int) (st : DState) (index : Nat) (r : Rng)
    (ex : Example) (r' : Rng) (ipath : String) (inp : Option (MaskT × Tensor))
    (r1 : Rng) (text : String) (r2 : Rng) (mask0 : Option Tensor)
    (hget : getitem ifs pre cf tok st index r = some (ex, r'))
    (hip : st.instance_images_path.get? (index % st.num_instance_images) = some ipath)
    (hinp : inpaintStage cf st (imageTransforms pre (ifs ipath)) r = some (inp, r1))
    (htext : resolveText st index r1 = some (text, r2))
    (hmask : maskStage ifs pre st index = some mask0) :
    ex.instance_images
      = condFlip st.size (flipDecision st r2) (imageTransforms pre (ifs ipath)) ∧
    ex.mask = mask0.map (condFlip st.size (flipDecision st r2)) ∧
    flipDecision st r2 = (st.h_flip && decide (r2.fstream r2.fpos > qHalf)) := by
  obtain ⟨hex, _⟩ :=
    getitem_some_spec ifs pre cf tok st index r ex r' ipath inp r1 text r2 mask0
      hget hip hinp htext hmask
  subst hex
  exact ⟨rfl, rfl, rfl⟩

/-- C9: in every successful lookup that loads a mask from disk, the stored
mask tensor is the mask image pushed through the *same* transform chain as
the instance image and then remapped by exactly `x * 0.5 + 1.0` (possibly
flipped together with the image); whenever the pre-normalization pipeline
value lies in `[0, 1]`, the chain output lies in `[-1, 1]` and the remapped
mask value lies in `[0.5, 1.5]`. -/
theorem C9_mask_affine_remap {Img : Type} (ifs : String → Img)
    (pre : Img → Tensor) (cf : Tensor → String → MaskT × Tensor)
    (tok : String → List Int) (st : DState) (index : Nat) (r : Rng)
    (ex : Example) (r' : Rng) (ipath : String) (inp : Option (MaskT × Tensor))
    (r1 : Rng) (text : String) (r2 : Rng) (mask0 : Option Tensor) (mp : String)
    (c y x : Int)
    (hget : getitem ifs pre cf tok st index r = some (ex, r'))
    (hip : st.instance_images_path.get? (index % st.num_instance_images) = some ipath)
    (hinp : inpaintStage cf st (imageTransforms pre (ifs ipath)) r = some (inp, r1))
    (htext : resolveText st index r1 = some (text, r2))
    (hmask : maskStage ifs pre st index = some mask0)
    (hum : st.use_mask = true)
    (hmp : st.mask_path.get? (index % st.num_instance_images) = some mp)
    (h0 : 0 ≤ pre (ifs mp) c y x) (h1 : pre (ifs mp) c y x ≤ 1) :
    mask0 = some (maskRemap (imageTransforms pre (ifs mp))) ∧
    ex.mask = some (condFlip st.size (flipDecision st r2)
      (maskRemap (imageTransforms pre (ifs mp)))) ∧
    maskRemap (imageTransforms pre (ifs mp)) c y x
      = imageTransforms pre (ifs mp) c y x * (1 / 2) + 1 ∧
    (-1 ≤ imageTransforms pre (ifs mp) c y x ∧
      imageTransforms pre (ifs mp) c y x ≤ 1) ∧
    (1 / 2 ≤ maskRemap (imageTransforms pre (ifs mp)) c y x ∧
      maskRemap (imageTransforms pre (ifs mp)) c y x ≤ 3 / 2) := by
  have hmask0 : mask0 = some (maskRemap (imageTransforms pre (ifs mp))) := by
    unfold maskStage at hmask
    rw [hum] at hmask
    simp only [if_true, hmp, Option.some.injEq] at hmask
    exact hmask.symm
  obtain ⟨hex, _⟩ :=
    getitem_some_spec ifs pre cf tok st index r ex r' ipath inp r1 text r2 mask0
      hget hip hinp htext hmask
  subst hex
  have htv : imageTransforms pre (ifs mp) c y x = 2 * pre (ifs mp) c y x - 1 := by
    unfold imageTransforms normalizeT
    rw [qHalf_eq]
    ring
  have hmv : maskRemap (imageTransforms pre (ifs mp)) c y x
      = imageTransforms pre (ifs mp) c y x * (1 / 2) + 1 := by
    unfold maskRemap
    rw [qHalf_eq]
  refine ⟨hmask0, ?_, hmv, ⟨?_, ?_⟩, ⟨?_, ?_⟩⟩
  · rw [hmask0]
    rfl
  · rw [htv]; linarith
  · rw [htv]; linarith
  · rw [hmv, htv]; linarith
  · rw [hmv, htv]; linarith

/-- Trivial image loader for witnesses (`Img := Unit`). -/
def ifs0 : String → Unit := fun _ => ()

/-- Constant pre-normalization pipeline for witnesses, with values in
`[0, 1]`. -/
def pre0 : Unit → Tensor := fun _ => fun _ _ _ => 1

/-- Trivial clipseg stand-in for witnesses. -/
def cf0 : Tensor → String → MaskT × Tensor :=
  fun _ _ => ((fun _ _ => 0), (fun _ _ _ => 0))

/-- Length-of-text tokenizer stand-in for witnesses. -/
def tok0 : String → List Int := fun s => [(s.length : Int)]

/-- A template-mode state with flipping enabled and a face-segmentation mask,
as used by the lookup witnesses. -/
def stW5 : DState :=
  { size := 4, instance_images_path := ["r/a.jpg"], mask_path := ["r/0.mask.png"],
    captions := ["a"], use_mask := true, use_mask_captioned_data := false,
    token_map := some [("<tok>", "dog")], use_template := some "null",
    templates := NULL_TEMPLATE, num_instance_images := 1, h_flip := true,
    train_inpainting := false, clipseg_mask := false, clipseg_prompt := "" }

/-- The concrete lookup result used by the C5 and C9 witnesses. -/
def out5 : Example × Rng :=
  (getitem ifs0 pre0 cf0 tok0 stW5 0 rng0).getD (default, rng0)

/-- Witness for C5 at a concrete lookup. -/
theorem C5_hflip_single_decision_witness :
    getitem ifs0 pre0 cf0 tok0 stW5 0 rng0 = some (out5.1, out5.2) ∧
    (out5.1.instance_images
        = condFlip stW5.size (flipDecision stW5 rng0.succI)
            (imageTransforms pre0 (ifs0 "r/a.jpg")) ∧
      out5.1.mask
        = (some (maskRemap (imageTransforms pre0 (ifs0 "r/0.mask.png")))).map
            (condFlip stW5.size (flipDecision stW5 rng0.succI)) ∧
      flipDecision stW5 rng0.succI
        = (stW5.h_flip && decide (rng0.succI.fstream rng0.succI.fpos > qHalf))) :=
  ⟨rfl,
    C5_hflip_single_decision ifs0 pre0 cf0 tok0 stW5 0 rng0 out5.1 out5.2
      "r/a.jpg" none rng0 "dog" rng0.succI
      (some (maskRemap (imageTransforms pre0 (ifs0 "r/0.mask.png"))))
      rfl rfl rfl rfl rfl⟩

/-- Witness for C9 at a concrete lookup. -/
theorem C9_mask_affine_remap_witness :
    stW5.use_mask = true ∧
    stW5.mask_path.get? (0 % stW5.num_instance_images) = some "r/0.mask.png" ∧
    (0 ≤ pre0 (ifs0 "r/0.mask.png") 0 0 0 ∧ pre0 (ifs0 "r/0.mask.png") 0 0 0 ≤ 1) ∧
    (some (maskRemap (imageTransforms pre0 (ifs0 "r/0.mask.png")))
        = some (maskRemap (imageTransforms pre0 (ifs0 "r/0.mask.png"))) ∧
      out5.1.mask = some (condFlip stW5.size (flipDecision stW5 rng0.succI)
        (maskRemap (imageTransforms pre0 (ifs0 "r/0.mask.png")))) ∧
      maskRemap (imageTransforms pre0 (ifs0 "r/0.mask.png")) 0 0 0
        = imageTransforms pre0 (ifs0 "r/0.mask.png") 0 0 0 * (1 / 2) + 1 ∧
      (-1 ≤ imageTransforms pre0 (ifs0 "r/0.mask.png") 0 0 0 ∧
        imageTransforms pre0 (ifs0 "r/0.mask.png") 0 0 0 ≤ 1) ∧
      (1 / 2 ≤ maskRemap (imageTransforms pre0 (ifs0 "r/0.mask.png")) 0 0 0 ∧
        maskRemap (imageTransforms pre0 (ifs0 "r/0.mask.png")) 0 0 0 ≤ 3 / 2)) :=
  ⟨rfl, rfl, ⟨by norm_num [pre0], by norm_num [pre0]⟩,
    C9_mask_affine_remap ifs0 pre0 cf0 tok0 stW5 0 rng0 out5.1 out5.2
      "r/a.jpg" none rng0 "dog" rng0.succI
      (some (maskRemap (imageTransforms pre0 (ifs0 "r/0.mask.png"))))
      "r/0.mask.png" 0 0 0
      rfl rfl rfl rfl rfl rfl rfl (by norm_num [pre0]) (by norm_num [pre0])⟩

/-- The cutout synthesizer's success, produced mask and final generator state
do not depend on the image contents (only the masked image does). -/
theorem generateRandomMask_image_indep (height width : Int) (imgA imgB : Tensor)
    (r : Rng) :
    (generateRandomMask height width imgA r).map (fun p => (p.1, p.2.2))
      = (generateRandomMask height width imgB r).map (fun p => (p.1, p.2.2)) := by
  unfold generateRandomMask
  cases h : getCutoutHoles height width 8 32 16 128 16 128 r with
  | none => rfl
  | some p =>
    obtain ⟨holes, r1⟩ := p
    rfl

/-- The inpainting stage's success and final generator state do not depend on
the transformed image contents, nor on the state's caption list. -/
theorem inpaintStage_rng_indep (cf : Tensor → String → MaskT × Tensor)
    (stA stB : DState) (imgA imgB : Tensor) (r : Rng)
    (hsz : stA.size = stB.size)
    (hti : stA.train_inpainting = stB.train_inpainting)
    (hcm : stA.clipseg_mask = stB.clipseg_mask) :
    (inpaintStage cf stA imgA r).map (fun p => p.2)
      = (inpaintStage cf stB imgB r).map (fun p => p.2) := by
  unfold inpaintStage
  rw [hsz, hti, hcm]
  by_cases h1 : stB.train_inpainting && !stB.clipseg_mask
  · simp only [h1, if_true]
    have hind := generateRandomMask_image_indep stB.size stB.size imgA imgB r
    cases hA : generateRandomMask stB.size stB.size imgA r with
    | none =>
      cases hB : generateRandomMask stB.size stB.size imgB r with
      | none => rfl
      | some pB => rw [hA, hB] at hind; simp at hind
    | some pA =>
      cases hB : generateRandomMask stB.size stB.size imgB r with
      | none => rw [hA, hB] at hind; simp at hind
      | some pB =>
        obtain ⟨mA, miA, rA⟩ := pA
        obtain ⟨mB, miB, rB⟩ := pB
        rw [hA, hB] at hind
        simp only [Option.map_some', Option.some.injEq, Prod.mk.injEq] at hind
        simp [hind.2]
  · simp only [h1, if_false, Bool.false_eq_true]
    split <;> rfl

/-- Template-mode prompt resolution ignores the lookup index and the caption
list. -/
theorem resolveText_template_indep (stA stB : DState) (i j : Nat) (r : Rng)
    (htrA : pyTruthy stA.use_template = true)
    (htrB : pyTruthy stB.use_template = true)
    (htm : stA.token_map = stB.token_map)
    (htpl : stA.templates = stB.templates) :
    resolveText stA i r = resolveText stB j r := by
  unfold resolveText
  rw [htrA, htrB, htm, htpl]
  simp only [if_true]

/-- The prompt ids produced by a lookup, as a function of the stage
outcomes. -/
theorem getitem_ids_eq {Img : Type} (ifs : String → Img) (pre : Img → Tensor)
    (cf : Tensor → String → MaskT × Tensor) (tok : String → List Int)
    (st : DState) (index : Nat) (r : Rng) (ipath : String)
    (hip : st.instance_images_path.get? (index % st.num_instance_images) = some ipath) :
    (getitem ifs pre cf tok st index r).map (fun p => p.1.instance_prompt_ids)
      = (match inpaintStage cf st (imageTransforms pre (ifs ipath)) r with
         | none => none
         | some (_, r1) =>
           match resolveText st index r1 with
           | none => none
           | some (text, _) =>
             match maskStage ifs pre st index with
             | none => none
             | some _ => some (tok text)) := by
  unfold getitem
  rw [hip]
  cases hinp : inpaintStage cf st (imageTransforms pre (ifs ipath)) r with
  | none => simp [hinp]
  | some p1 =>
    obtain ⟨inp, r1⟩ := p1
    cases htext : resolveText st index r1 with
    | none => simp [hinp, htext]
    | some p2 =>
      obtain ⟨text, r2⟩ := p2
      cases hmask : maskStage ifs pre st index with
      | none => simp [hinp, htext, hmask]
      | some mask0 => simp [hinp, htext, hmask, flipStage_eq]

/-- Under the constructor's invariants the mask-loading stage never fails. -/
theorem maskStage_some {Img : Type} (ifs : String → Img) (pre : Img → Tensor)
    (st : DState) (index : Nat)
    (hlen : st.use_mask = true → st.mask_path.length = st.num_instance_images)
    (hpos : 0 < st.num_instance_images) :
    ∃ m0, maskStage ifs pre st index = some m0 := by
  unfold maskStage
  by_cases hum : st.use_mask = true
  · have hlt : index % st.num_instance_images < st.mask_path.length := by
      rw [hlen hum]
      exact Nat.mod_lt _ hpos
    refine ⟨some (maskRemap (imageTransforms pre
      (ifs (st.mask_path.get ⟨index % st.num_instance_images, hlt⟩)))), ?_⟩
    simp [hum, List.getElem?_eq_getElem hlt]
  · simp only [Bool.not_eq_true] at hum
    exact ⟨none, by simp [hum]⟩

/-- C10: in template mode the resolved prompt text, and hence the tokenized
prompt id sequence, does not depend on the lookup index or on the stored
caption list: two lookups at any indices `i, j`, with any caption lists and
the same initial generator state, yield identical prompt ids, and prompt
resolution itself returns identical results from any shared generator
state. -/
theorem C10_template_prompt_independent {Img : Type} (ifs : String → Img)
    (pre : Img → Tensor) (cf : Tensor → String → MaskT × Tensor)
    (tok : String → List Int) (st : DState) (c1 c2 : List String) (i j : Nat)
    (r r' : Rng)
    (hwf : DStateWF st) (htr : pyTruthy st.use_template = true) :
    ((getitem ifs pre cf tok { st with captions := c1 } i r).map
        (fun p => p.1.instance_prompt_ids)
      = (getitem ifs pre cf tok { st with captions := c2 } j r).map
        (fun p => p.1.instance_prompt_ids)) ∧
    resolveText { st with captions := c1 } i r'
      = resolveText { st with captions := c2 } j r' := by
  obtain ⟨hlen, hpos, hmaskl⟩ := hwf
  refine ⟨?_, resolveText_template_indep _ _ i j r' htr htr rfl rfl⟩
  have hilt : i % st.num_instance_images < st.instance_images_path.length := by
    rw [← hlen]
    exact Nat.mod_lt _ hpos
  have hjlt : j % st.num_instance_images < st.instance_images_path.length := by
    rw [← hlen]
    exact Nat.mod_lt _ hpos
  have hip1 : ({ st with captions := c1 } : DState).instance_images_path.get?
      (i % ({ st with captions := c1 } : DState).num_instance_images)
      = some (st.instance_images_path.get ⟨i % st.num_instance_images, hilt⟩) :=
    List.get?_eq_get hilt
  have hip2 : ({ st with captions := c2 } : DState).instance_images_path.get?
      (j % ({ st with captions := c2 } : DState).num_instance_images)
      = some (st.instance_images_path.get ⟨j % st.num_instance_images, hjlt⟩) :=
    List.get?_eq_get hjlt
  rw [getitem_ids_eq ifs pre cf tok _ i r _ hip1,
    getitem_ids_eq ifs pre cf tok _ j r _ hip2]
  have hinpeq := inpaintStage_rng_indep cf { st with captions := c1 }
    { st with captions := c2 }
    (imageTransforms pre (ifs (st.instance_images_path.get
      ⟨i % st.num_instance_images, hilt⟩)))
    (imageTransforms pre (ifs (st.instance_images_path.get
      ⟨j % st.num_instance_images, hjlt⟩))) r rfl rfl rfl
  cases hA : inpaintStage cf { st with captions := c1 }
      (imageTransforms pre (ifs (st.instance_images_path.get
        ⟨i % st.num_instance_images, hilt⟩))) r with
  | none =>
    rw [hA] at hinpeq
    cases hB : inpaintStage cf { st with captions := c2 }
        (imageTransforms pre (ifs (st.instance_images_path.get
          ⟨j % st.num_instance_images, hjlt⟩))) r with
    | none => rfl
    | some pB => rw [hB] at hinpeq; simp at hinpeq
  | some pA =>
    obtain ⟨inpA, r1⟩ := pA
    rw [hA] at hinpeq
    cases hB : inpaintStage cf { st with captions := c2 }
        (imageTransforms pre (ifs (st.instance_images_path.get
          ⟨j % st.num_instance_images, hjlt⟩))) r with
    | none => rw [hB] at hinpeq; simp at hinpeq
    | some pB =>
      obtain ⟨inpB, r1B⟩ := pB
      rw [hB] at hinpeq
      simp only [Option.map_some', Option.some.injEq] at hinpeq
      subst hinpeq
      have htexteq : resolveText { st with captions := c1 } i r1
          = resolveText { st with captions := c2 } j r1 :=
        resolveText_template_indep _ _ i j r1 htr htr rfl rfl
      cases hT : resolveText { st with captions := c2 } j r1 with
      | none => simp only [htexteq, hT]
      | some pT =>
        obtain ⟨text, r2⟩ := pT
        obtain ⟨m1, hm1⟩ := maskStage_some ifs pre { st with captions := c1 } i
          hmaskl hpos
        obtain ⟨m2, hm2⟩ := maskStage_some ifs pre { st with captions := c2 } j
          hmaskl hpos
        simp only [htexteq, hT, hm1, hm2]

/-- Witness for C10: lookups at indices 0 and 5 with different caption lists
produce the same prompt ids (`tok0 "dog" = [3]`). -/
theorem C10_template_prompt_independent_witness :
    DStateWF stW5 ∧ pyTruthy stW5.use_template = true ∧
    ((getitem ifs0 pre0 cf0 tok0 { stW5 with captions := ["x"] } 0 rng0).map
        (fun p => p.1.instance_prompt_ids)
      = (getitem ifs0 pre0 cf0 tok0 { stW5 with captions := ["y"] } 5 rng0).map
        (fun p => p.1.instance_prompt_ids) ∧
      resolveText { stW5 with captions := ["x"] } 0 rng0
        = resolveText { stW5 with captions := ["y"] } 5 rng0) ∧
    (getitem ifs0 pre0 cf0 tok0 { stW5 with captions := ["x"] } 0 rng0).map
        (fun p => p.1.instance_prompt_ids) = some [3] :=
  ⟨⟨rfl, by decide, fun _ => rfl⟩, rfl,
    C10_template_prompt_independent ifs0 pre0 cf0 tok0 stW5 ["x"] ["y"] 0 5 rng0 rng0
      ⟨rfl, by decide, fun _ => rfl⟩ rfl, rfl⟩

/-- A filesystem whose root exists (used by the C7 counterexample). -/
def fs7 : FS :=
  { rootExists := true, globSrcJpg := [], globJpg := [], globPng := [],
    globJpeg := [], globMaskPng := [], maskExists := fun _ => false,
    captionLines := [] }

/-- Constructor arguments requesting both mask-captioned data and a template
set. -/
def args7 : InitArgs :=
  { instance_data_root := "r", token_map := none, use_template := some "object",
    size := 512, h_flip := true, use_mask_captioned_data := true,
    use_face_segmentation_condition := false, train_inpainting := false,
    clipseg_mask := false, clipseg_prompt := "" }

/-- C7 counterexample: with both `use_mask_captioned_data=True` and a
template set, construction does fail with the mutual-exclusion configuration
error, but not before *any* file I/O: the root-existence check (an
`os.stat`) at line 208 runs first, so the I/O trace at the failure is
`[statRoot]`, not empty. -/
theorem C7_io_before_assert_counterexample :
    init fs7 args7 = (Except.error InitError.bothMaskCaptionedAndTemplate,
      [IOp.statRoot]) ∧
    ([IOp.statRoot] : List IOp) ≠ [] :=
  ⟨rfl, by decide⟩

/-- C7 (amended): whenever both `use_mask_captioned_data` and a (truthy)
template name are supplied and the root exists, construction fails with the
mutual-exclusion configuration error before any directory enumeration or
file read — the only filesystem access preceding the failure is the
root-existence check (and when the root is missing, the missing-root error
fires instead, still before any enumeration). -/
theorem C7_both_modes_fail_before_enumeration (fs : FS) (a : InitArgs)
    (hmc : a.use_mask_captioned_data = true)
    (htr : pyTruthy a.use_template = true)
    (hroot : fs.rootExists = true) :
    init fs a = (Except.error InitError.bothMaskCaptionedAndTemplate,
      [IOp.statRoot]) := by
  unfold init
  rw [hroot, hmc, htr]
  simp

/-- Witness for C7 (amended). -/
theorem C7_both_modes_fail_before_enumeration_witness :
    args7.use_mask_captioned_data = true ∧
    pyTruthy args7.use_template = true ∧
    fs7.rootExists = true ∧
    init fs7 args7 = (Except.error InitError.bothMaskCaptionedAndTemplate,
      [IOp.statRoot]) :=
  ⟨rfl, rfl, rfl, C7_both_modes_fail_before_enumeration fs7 args7 rfl rfl rfl⟩

/-- A free-mode filesystem whose directory enumeration returns the two images
in non-lexicographic order. -/
def fs8 : FS :=
  { rootExists := true, globSrcJpg := [], globJpg := ["r/b.jpg", "r/a.jpg"],
    globPng := [], globJpeg := [], globMaskPng := [],
    maskExists := fun _ => false, captionLines := [] }

/-- Free-discovery constructor arguments. -/
def args8 : InitArgs :=
  { instance_data_root := "r", token_map := none, use_template := none,
    size := 512, h_flip := false, use_mask_captioned_data := false,
    use_face_segmentation_condition := false, train_inpainting := false,
    clipseg_mask := false, clipseg_prompt := "" }

/-- The dataset state built from `fs8`. -/
def st8 : DState :=
  match (init fs8 args8).1 with
  | Except.ok st => st
  | Except.error _ => default

/-- C8 (code bug): in free-discovery mode the caption list is derived from
the image list *before* the list is sorted (lines 245-254), so when the
directory enumeration is not already in lexicographic order the captions are
misaligned: the example at index 0 loads `r/a.jpg` but resolves the caption
`"b"`, the stem of the *other* image, where the spec's per-image-stem rule
requires `"a"`. -/
theorem C8_caption_misalignment_bug :
    st8.instance_images_path = ["r/a.jpg", "r/b.jpg"] ∧
    st8.captions = ["b", "a"] ∧
    resolveText st8 0 rng0 = some ("b", rng0) ∧
    firstDotSeg (basename "r/a.jpg") = "a" ∧
    ("b" : String) ≠ "a" :=
  ⟨rfl, rfl, rfl, rfl, by decide⟩
